import Mathlib

set_option maxHeartbeats 1000000

/-! Shallow embedding of `src/mouse_capture.cpp`: a PS/2 (ImPS/2) mouse data
capture program.  The `ButtonProcess` class (lines 47-157) is the click
classifier; `main` (lines 159-281) opens `/dev/input/mice`, switches the
device to 4-byte ImPS/2 reports, and runs a select/drain/timer loop.

The embedding keeps the source's names.  `gettimeofday` results are passed
in explicitly as `timeval` values; `printf`+`fflush` output is collected as
a list of output lines (without the trailing newline); C `assert` failures
are modelled by `Option` (`none` = the assertion fired). -/

/-- Model of `struct timeval`: seconds and microseconds since the epoch,
both nonnegative, as delivered by `gettimeofday`. -/
structure timeval where
  tv_sec : Nat
  tv_usec : Nat
deriving DecidableEq

/-- The millisecond value `t.tv_sec*1000 + t.tv_usec/1000` computed by
`ButtonProcess::Timer` (line 128) for each of the two timevals; C integer
division on nonnegative operands is `Nat` division. -/
def msOf (t : timeval) : Nat := t.tv_sec * 1000 + t.tv_usec / 1000

/-- The `enum { BTN_LEFT, BTN_RIGHT, BTN_NULL }` of `ButtonProcess`
(lines 50-54). -/
inductive BtnType where
  | BTN_LEFT
  | BTN_RIGHT
  | BTN_NULL
deriving DecidableEq

/-- The mutable fields of class `ButtonProcess` (lines 152-156). -/
structure ButtonProcess where
  m_btnPre : BtnType
  m_tv_cur : timeval
  m_bTimer : Bool
deriving DecidableEq

/-- The constructor `ButtonProcess::ButtonProcess` (lines 57-63):
`m_btnPre = BTN_NULL`, `m_bTimer = false`, `m_tv_cur = {0,0}`. -/
def ButtonProcess.init : ButtonProcess :=
  { m_btnPre := BtnType.BTN_NULL
    m_tv_cur := { tv_sec := 0, tv_usec := 0 }
    m_bTimer := false }

/-- `ButtonProcess::EnableTimer` (lines 65-69); `now` is the value
`gettimeofday` stores into `m_tv_cur`. -/
def ButtonProcess.EnableTimer (s : ButtonProcess) (now : timeval) : ButtonProcess :=
  { s with m_bTimer := true, m_tv_cur := now }

/-- `ButtonProcess::DisableTimer` (lines 71-74). -/
def ButtonProcess.DisableTimer (s : ButtonProcess) : ButtonProcess :=
  { s with m_bTimer := false }

/-- `ButtonProcess::IsTimerEnable` (lines 76-79). -/
def ButtonProcess.IsTimerEnable (s : ButtonProcess) : Bool := s.m_bTimer

/-- `ButtonProcess::Button` (lines 81-117).  Returns
`some (output lines, new state, return value)`; `none` models the failure
of `assert(type == BTN_LEFT || type == BTN_RIGHT)` (line 83).  The C++
return value is `false` exactly in the quit branch. -/
def ButtonProcess.Button (s : ButtonProcess) (type : BtnType) (now : timeval) :
    Option (List String × ButtonProcess × Bool) :=
  if type = BtnType.BTN_LEFT ∨ type = BtnType.BTN_RIGHT then
    if s.m_btnPre = BtnType.BTN_NULL then
      some ([], ButtonProcess.EnableTimer { s with m_btnPre := type } now, true)
    else if s.m_btnPre ≠ type then
      some (["q"], ButtonProcess.DisableTimer { s with m_btnPre := BtnType.BTN_NULL }, false)
    else if s.m_btnPre = BtnType.BTN_LEFT then
      some (["z"], ButtonProcess.DisableTimer { s with m_btnPre := BtnType.BTN_NULL }, true)
    else
      some (["x"], ButtonProcess.DisableTimer { s with m_btnPre := BtnType.BTN_NULL }, true)
  else none

/-- `ButtonProcess::Timer` (lines 119-150); `now` is the `gettimeofday`
result at line 127.  Returns `some (output lines, new state)`; `none`
models the failure of `assert(m_btnPre != BTN_NULL)` (line 131).  The
interval is the millisecond difference compared with `>= 300`. -/
def ButtonProcess.Timer (s : ButtonProcess) (now : timeval) :
    Option (List String × ButtonProcess) :=
  if s.IsTimerEnable then
    if (msOf now : Int) - (msOf s.m_tv_cur : Int) ≥ 300 then
      if s.m_btnPre = BtnType.BTN_NULL then none
      else if s.m_btnPre = BtnType.BTN_LEFT then
        some (["<"], { s.DisableTimer with m_btnPre := BtnType.BTN_NULL })
      else
        some ([">"], { s.DisableTimer with m_btnPre := BtnType.BTN_NULL })
    else
      some ([], s)
  else
    some ([], s)

/-- `struct imps2_data` (lines 27-44): the decoded 4-byte ImPS/2 report.
Byte 0 holds the button and sign/overflow bit flags; `x`, `y`, `z` are
signed chars (the sign/overflow flags are decoded but never consumed by
the dispatch logic). -/
structure imps2_data where
  btn_left : Bool
  btn_right : Bool
  btn_middle : Bool
  NONE : Bool
  x_sign : Bool
  y_sign : Bool
  x_overflow : Bool
  y_overflow : Bool
  x : Int
  y : Int
  z : Int
deriving DecidableEq

/-- The per-packet dispatch of `main` for a full-size report
(lines 220-270).  Returns `some (output lines, classifier state, exit)`
where `exit = some c` means `main` returns with status `c` (after
`close(mice_fd)`), and `none` models an assertion failure inside
`Button`.  The button branch requires `z == 0 && x == 0 && y == 0`
(line 226); otherwise only a nonzero `z` produces output (lines 253-270). -/
def processPacket (data : imps2_data) (s : ButtonProcess) (now : timeval) :
    Option (List String × ButtonProcess × Option Nat) :=
  if data.z = 0 ∧ data.x = 0 ∧ data.y = 0 then
    if data.btn_left then
      match s.Button BtnType.BTN_LEFT now with
      | none => none
      | some (out, s1, ok) => some (out, s1, if ok then none else some 0)
    else if data.btn_right then
      match s.Button BtnType.BTN_RIGHT now with
      | none => none
      | some (out, s1, ok) => some (out, s1, if ok then none else some 0)
    else if data.btn_middle then
      some (["p"], s, none)
    else
      some ([], s, none)
  else
    if data.z ≠ 0 then
      if data.z > 0 then some (["9"], s, none)
      else some (["0"], s, none)
    else
      some ([], s, none)

/-- A single call on the classifier: a `Button` call (`press`) or a
`Timer` call (`tick`), each with the `gettimeofday` value observed during
the call. -/
inductive BPEvent where
  | press (type : BtnType) (now : timeval)
  | tick (now : timeval)

/-- One classifier call; the `Bool` return value of `Button` is dropped
(it only steers `main`). -/
def bpStep (e : BPEvent) (s : ButtonProcess) : Option (List String × ButtonProcess) :=
  match e with
  | BPEvent.press type now =>
    match s.Button type now with
    | none => none
    | some (out, s1, _) => some (out, s1)
  | BPEvent.tick now => s.Timer now

/-- A sequence of classifier calls, accumulating output lines;
`none` as soon as any assertion fails. -/
def bpRun : List BPEvent → ButtonProcess → Option (List String × ButtonProcess)
  | [], s => some ([], s)
  | e :: es, s =>
    match bpStep e s with
    | none => none
    | some (out, s1) =>
      match bpRun es s1 with
      | none => none
      | some (out2, s2) => some (out ++ out2, s2)

/-- A classifier state reachable from the initial state by some sequence of
`Button` and `Timer` calls, none of which hit an assertion failure. -/
def Reachable (s : ButtonProcess) : Prop :=
  ∃ evs out, bpRun evs ButtonProcess.init = some (out, s)

/-- One iteration's worth of work inside `main`'s drain loop: either a
full-size packet arrived (`pkt`) or the loop fell through to the
`btnProcess.Timer()` call at line 277 (`tick`). -/
inductive LoopEvent where
  | pkt (data : imps2_data) (now : timeval)
  | tick (now : timeval)

/-- Runs `main`'s packet/timer processing over a sequence of loop events,
accumulating output; stops (keeping the code) as soon as a packet causes
`main` to return, and returns `none` on an assertion failure. -/
def runLoop : List LoopEvent → ButtonProcess → Option (List String × ButtonProcess × Option Nat)
  | [], s => some ([], s, none)
  | LoopEvent.pkt data now :: es, s =>
    match processPacket data s now with
    | none => none
    | some (out, s1, some c) => some (out, s1, some c)
    | some (out, s1, none) =>
      match runLoop es s1 with
      | none => none
      | some (out2, s2, e) => some (out ++ out2, s2, e)
  | LoopEvent.tick now :: es, s =>
    match s.Timer now with
    | none => none
    | some (out, s1) =>
      match runLoop es s1 with
      | none => none
      | some (out2, s2, e) => some (out ++ out2, s2, e)

/-- The startup of `main` (lines 161-175): `open` failing (returning -1)
exits with status 1; the `write` of the ImPS/2 mode sequence returning a
negative count exits with status 1; otherwise `main` proceeds (`none`). -/
def startupExit (openFail : Bool) (writeRet : Int) : Option Nat :=
  if openFail then some 1
  else if writeRet < 0 then some 1
  else none

/-- The `select` return check of `main` (lines 189-194): a negative
return exits with status 1, otherwise the loop continues. -/
def selectCheck (ret : Int) : Option Nat :=
  if ret < 0 then some 1 else none

/-- The outcome of one `read` in `main`'s drain loop (lines 202-216):
`chunk nLen data` for a read of `nLen > 0` bytes (with the buffer contents
decoded when `nLen` equals `sizeof(imps2_data) = 4`), `eof` for a zero
return, and `fail eagain` for a -1 return with `errno == EAGAIN`
indicated by `eagain`. -/
inductive ReadResult where
  | chunk (nLen : Nat) (data : imps2_data)
  | eof
  | fail (eagain : Bool)

/-- What `main` does next after handling one read result: return from the
process with a status, break out of the drain loop, or keep draining. -/
inductive DrainSignal where
  | exitCode (c : Nat)
  | stopDrain
  | keepDraining
deriving DecidableEq

/-- Handling of one read result inside `main`'s drain loop
(lines 202-272): `nLen == 0` exits with status 1; `nLen == -1` exits with
status 1 unless `errno == EAGAIN`, which only breaks the drain loop; a
short read (`nLen != sizeof(data)`, e.g. the 1-byte ack) is ignored; a
full-size read is dispatched through `processPacket`. -/
def handleRead (r : ReadResult) (s : ButtonProcess) (now : timeval) :
    Option (List String × ButtonProcess × DrainSignal) :=
  match r with
  | ReadResult.eof => some ([], s, DrainSignal.exitCode 1)
  | ReadResult.fail eagain =>
    if eagain then some ([], s, DrainSignal.stopDrain)
    else some ([], s, DrainSignal.exitCode 1)
  | ReadResult.chunk nLen data =>
    if nLen = 4 then
      match processPacket data s now with
      | none => none
      | some (out, s1, some c) => some (out, s1, DrainSignal.exitCode c)
      | some (out, s1, none) => some (out, s1, DrainSignal.keepDraining)
    else
      some ([], s, DrainSignal.keepDraining)

/-- A report whose only content is a press of button `b`: the
corresponding button flag set, every other field zero. -/
def pressData (b : BtnType) : imps2_data :=
  { btn_left := b = BtnType.BTN_LEFT
    btn_right := b = BtnType.BTN_RIGHT
    btn_middle := false
    NONE := false
    x_sign := false
    y_sign := false
    x_overflow := false
    y_overflow := false
    x := 0, y := 0, z := 0 }

/-- A report whose only content is a wheel movement `z`. -/
def wheelData (z : Int) : imps2_data :=
  { btn_left := false
    btn_right := false
    btn_middle := false
    NONE := false
    x_sign := false
    y_sign := false
    x_overflow := false
    y_overflow := false
    x := 0, y := 0, z := z }

/-- Auxiliary: `Button` returns `false` only in the quit branch, where the
output is the single line `q` and the state is reset. -/
theorem Button_false_quit {s : ButtonProcess} {t : BtnType} {now : timeval}
    {out : List String} {s1 : ButtonProcess}
    (h : s.Button t now = some (out, s1, false)) :
    out = ["q"] ∧ s1.m_btnPre = BtnType.BTN_NULL ∧ s1.m_bTimer = false := by
  cases t <;> cases hb : s.m_btnPre <;>
    simp_all [ButtonProcess.Button, ButtonProcess.EnableTimer, ButtonProcess.DisableTimer]
  all_goals (rcases h with ⟨h1, h2⟩; subst h2; exact ⟨rfl, rfl⟩)

/-- C1: in state Pending(B) (pending button `B`, deadline armed at
`m_tv_cur`), `Timer(now)` with a millisecond difference `>= 300` emits
exactly the one line `<` (Left) or `>` (Right) and resets to Idle; with a
difference `< 300` it changes nothing and emits nothing. -/
theorem C1_pending_timeout (s : ButtonProcess) (now : timeval)
    (hb : s.m_btnPre ≠ BtnType.BTN_NULL) (ht : s.m_bTimer = true) :
    ((msOf now : Int) - (msOf s.m_tv_cur : Int) ≥ 300 →
      s.Timer now = some ([if s.m_btnPre = BtnType.BTN_LEFT then "<" else ">"],
        { s with m_btnPre := BtnType.BTN_NULL, m_bTimer := false })) ∧
    ((msOf now : Int) - (msOf s.m_tv_cur : Int) < 300 →
      s.Timer now = some ([], s)) := by
  constructor
  · intro hge
    cases hpre : s.m_btnPre <;>
      simp_all [ButtonProcess.Timer, ButtonProcess.IsTimerEnable, ButtonProcess.DisableTimer]
  · intro hlt
    simp [ButtonProcess.Timer, ButtonProcess.IsTimerEnable, ht, not_le.mpr hlt]

/-- Witness for C1 at a concrete pending-left state: at 1000ms past the
armed time the single click fires; at 100ms it does not. -/
theorem C1_pending_timeout_witness :
    (⟨BtnType.BTN_LEFT, ⟨0, 0⟩, true⟩ : ButtonProcess).Timer ⟨1, 0⟩ =
      some (["<"], ⟨BtnType.BTN_NULL, ⟨0, 0⟩, false⟩) ∧
    (⟨BtnType.BTN_LEFT, ⟨0, 0⟩, true⟩ : ButtonProcess).Timer ⟨0, 100000⟩ =
      some ([], ⟨BtnType.BTN_LEFT, ⟨0, 0⟩, true⟩) :=
  ⟨(C1_pending_timeout ⟨BtnType.BTN_LEFT, ⟨0, 0⟩, true⟩ ⟨1, 0⟩ (by decide) rfl).1 (by decide),
   (C1_pending_timeout ⟨BtnType.BTN_LEFT, ⟨0, 0⟩, true⟩ ⟨0, 100000⟩ (by decide) rfl).2 (by decide)⟩

/-- C2: in state Pending(B), `Button(B)` with the same button emits exactly
the one line `z` (Left) or `x` (Right) — no single click — resets to Idle,
and returns `true` (the process keeps running). -/
theorem C2_double_click (s : ButtonProcess) (B : BtnType) (now : timeval)
    (hB : B ≠ BtnType.BTN_NULL) (hpre : s.m_btnPre = B) (ht : s.m_bTimer = true) :
    s.Button B now =
      some ([if B = BtnType.BTN_LEFT then "z" else "x"],
        { s with m_btnPre := BtnType.BTN_NULL, m_bTimer := false }, true) := by
  cases B <;>
    simp_all [ButtonProcess.Button, ButtonProcess.DisableTimer]

/-- Witness for C2: a pending-left state receiving a second left press
emits the double-click line `z`. -/
theorem C2_double_click_witness :
    (⟨BtnType.BTN_LEFT, ⟨0, 0⟩, true⟩ : ButtonProcess).Button BtnType.BTN_LEFT ⟨0, 100000⟩ =
      some (["z"], ⟨BtnType.BTN_NULL, ⟨0, 0⟩, false⟩, true) :=
  C2_double_click ⟨BtnType.BTN_LEFT, ⟨0, 0⟩, true⟩ BtnType.BTN_LEFT ⟨0, 100000⟩
    (by decide) rfl rfl

/-- C3: in state Pending(B1), pressing the other button B2 immediately
emits exactly the one line `q`, resets to Idle, and `Button` returns
`false`; at `main`'s level the packet carrying the B2 press therefore
makes the process return with exit status 0 (after closing the device). -/
theorem C3_quit_gesture (s : ButtonProcess) (B1 B2 : BtnType) (now : timeval)
    (h1 : B1 ≠ BtnType.BTN_NULL) (h2 : B2 ≠ BtnType.BTN_NULL) (hne : B1 ≠ B2)
    (hpre : s.m_btnPre = B1) (ht : s.m_bTimer = true) :
    s.Button B2 now =
      some (["q"], { s with m_btnPre := BtnType.BTN_NULL, m_bTimer := false }, false) ∧
    processPacket (pressData B2) s now =
      some (["q"], { s with m_btnPre := BtnType.BTN_NULL, m_bTimer := false }, some 0) ∧
    handleRead (ReadResult.chunk 4 (pressData B2)) s now =
      some (["q"], { s with m_btnPre := BtnType.BTN_NULL, m_bTimer := false },
        DrainSignal.exitCode 0) := by
  cases B1 <;> cases B2 <;>
    simp_all [ButtonProcess.Button, ButtonProcess.DisableTimer, processPacket, pressData,
      handleRead]

/-- Witness for C3: pending left, then a right press: `q` and exit 0. -/
theorem C3_quit_gesture_witness :
    (⟨BtnType.BTN_LEFT, ⟨0, 0⟩, true⟩ : ButtonProcess).Button BtnType.BTN_RIGHT ⟨0, 100000⟩ =
      some (["q"], ⟨BtnType.BTN_NULL, ⟨0, 0⟩, false⟩, false) ∧
    processPacket (pressData BtnType.BTN_RIGHT) ⟨BtnType.BTN_LEFT, ⟨0, 0⟩, true⟩ ⟨0, 100000⟩ =
      some (["q"], ⟨BtnType.BTN_NULL, ⟨0, 0⟩, false⟩, some 0) ∧
    handleRead (ReadResult.chunk 4 (pressData BtnType.BTN_RIGHT))
        ⟨BtnType.BTN_LEFT, ⟨0, 0⟩, true⟩ ⟨0, 100000⟩ =
      some (["q"], ⟨BtnType.BTN_NULL, ⟨0, 0⟩, false⟩, DrainSignal.exitCode 0) :=
  C3_quit_gesture ⟨BtnType.BTN_LEFT, ⟨0, 0⟩, true⟩ BtnType.BTN_LEFT BtnType.BTN_RIGHT
    ⟨0, 100000⟩ (by decide) (by decide) (by decide) rfl rfl

/-- C4 counterexample: a full-size report with `z = 0` but `x = 1` and the
left button bit set is NOT dispatched to the classifier — `main` produces
no output and leaves the state untouched — although a `report_button(Left)`
call would have armed the pending slot (so the claim's premise `z == 0`
is not enough; the code also requires `x == 0 && y == 0`). -/
theorem C4_dispatch_counterexample :
    processPacket ⟨true, false, false, false, false, false, false, false, 1, 0, 0⟩
      ButtonProcess.init ⟨0, 0⟩ = some ([], ButtonProcess.init, none) ∧
    ButtonProcess.init.Button BtnType.BTN_LEFT ⟨0, 0⟩ =
      some ([], ⟨BtnType.BTN_LEFT, ⟨0, 0⟩, true⟩, true) ∧
    (⟨BtnType.BTN_LEFT, ⟨0, 0⟩, true⟩ : ButtonProcess) ≠ ButtonProcess.init := by
  refine ⟨by decide, by decide, by decide⟩

/-- C4 (amended): for a full-size report with `z = 0`, `x = 0` and `y = 0`,
dispatch follows the stated priority: left to the classifier first, else
right, else middle emits the immediate line `p`. -/
theorem C4_dispatch_priority (d : imps2_data) (s : ButtonProcess) (now : timeval)
    (hz : d.z = 0) (hx : d.x = 0) (hy : d.y = 0) :
    (d.btn_left = true →
      ∀ out s1 ok, s.Button BtnType.BTN_LEFT now = some (out, s1, ok) →
        processPacket d s now = some (out, s1, if ok then none else some 0)) ∧
    (d.btn_left = false → d.btn_right = true →
      ∀ out s1 ok, s.Button BtnType.BTN_RIGHT now = some (out, s1, ok) →
        processPacket d s now = some (out, s1, if ok then none else some 0)) ∧
    (d.btn_left = false → d.btn_right = false → d.btn_middle = true →
      processPacket d s now = some (["p"], s, none)) := by
  refine ⟨?_, ?_, ?_⟩
  · intro hl out s1 ok hB
    simp [processPacket, hz, hx, hy, hl, hB]
  · intro hl hr out s1 ok hB
    simp [processPacket, hz, hx, hy, hl, hr, hB]
  · intro hl hr hm
    simp [processPacket, hz, hx, hy, hl, hr, hm]

/-- Witness for the amended C4 at concrete inputs: a pure left-press
report arms the classifier; a pure middle-press report emits `p`. -/
theorem C4_dispatch_priority_witness :
    processPacket (pressData BtnType.BTN_LEFT) ButtonProcess.init ⟨0, 0⟩ =
      some ([], ⟨BtnType.BTN_LEFT, ⟨0, 0⟩, true⟩, if true then none else some 0) ∧
    processPacket ⟨false, false, true, false, false, false, false, false, 0, 0, 0⟩
      ButtonProcess.init ⟨0, 0⟩ = some (["p"], ButtonProcess.init, none) :=
  ⟨(C4_dispatch_priority (pressData BtnType.BTN_LEFT) ButtonProcess.init ⟨0, 0⟩
      rfl rfl rfl).1 (by decide) [] ⟨BtnType.BTN_LEFT, ⟨0, 0⟩, true⟩ true (by decide),
   (C4_dispatch_priority ⟨false, false, true, false, false, false, false, false, 0, 0, 0⟩
      ButtonProcess.init ⟨0, 0⟩ rfl rfl rfl).2.2 rfl rfl rfl⟩

/-- C6: a full-size report with all three button bits clear and a nonzero
wheel delta produces exactly one output line: `9` for `z > 0`, `0` for
`z < 0`, with no classifier change and no exit. -/
theorem C6_wheel_output (d : imps2_data) (s : ButtonProcess) (now : timeval)
    (hl : d.btn_left = false) (hr : d.btn_right = false) (hm : d.btn_middle = false)
    (hz : d.z ≠ 0) :
    (d.z > 0 → processPacket d s now = some (["9"], s, none)) ∧
    (d.z < 0 → processPacket d s now = some (["0"], s, none)) := by
  constructor
  · intro hpos
    simp [processPacket, hz, hpos]
  · intro hneg
    simp [processPacket, hz, not_lt.mpr (le_of_lt hneg)]

/-- Witness for C6: `z = 1` gives the line `9`; `z = -1` gives `0`. -/
theorem C6_wheel_output_witness :
    processPacket (wheelData 1) ButtonProcess.init ⟨0, 0⟩ =
      some (["9"], ButtonProcess.init, none) ∧
    processPacket (wheelData (-1)) ButtonProcess.init ⟨0, 0⟩ =
      some (["0"], ButtonProcess.init, none) :=
  ⟨(C6_wheel_output (wheelData 1) ButtonProcess.init ⟨0, 0⟩ rfl rfl rfl
      (by decide)).1 (by decide),
   (C6_wheel_output (wheelData (-1)) ButtonProcess.init ⟨0, 0⟩ rfl rfl rfl
      (by decide)).2 (by decide)⟩

/-- C10: a full-size report with `z = 0` and a nonzero `x` or `y` motion
delta produces no output, no classifier change and no exit — whatever the
button bits say. -/
theorem C10_motion_only (d : imps2_data) (s : ButtonProcess) (now : timeval)
    (hz : d.z = 0) (hxy : d.x ≠ 0 ∨ d.y ≠ 0) :
    processPacket d s now = some ([], s, none) := by
  rcases hxy with h | h <;> simp [processPacket, hz, h]

/-- Witness for C10: a report with the left button bit set but `x = 1`
(motion present) is completely ignored. -/
theorem C10_motion_only_witness :
    processPacket ⟨true, true, true, false, false, false, false, false, 1, 0, 0⟩
      ButtonProcess.init ⟨0, 0⟩ = some ([], ButtonProcess.init, none) :=
  C10_motion_only ⟨true, true, true, false, false, false, false, false, 1, 0, 0⟩
    ButtonProcess.init ⟨0, 0⟩ rfl (Or.inl (by decide))

/-- Auxiliary: one classifier call preserves the timer invariant
(armed timer implies a pending button). -/
theorem bpStep_inv {e : BPEvent} {s s1 : ButtonProcess} {out : List String}
    (h : bpStep e s = some (out, s1))
    (hs : s.m_bTimer = true → s.m_btnPre ≠ BtnType.BTN_NULL) :
    s1.m_bTimer = true → s1.m_btnPre ≠ BtnType.BTN_NULL := by
  cases e with
  | press t now =>
    cases t <;> cases hb : s.m_btnPre <;>
      simp_all [bpStep, ButtonProcess.Button, ButtonProcess.EnableTimer,
        ButtonProcess.DisableTimer] <;>
      (rcases h with ⟨h1, h2⟩; subst h2; simp)
  | tick now =>
    simp only [bpStep] at h
    unfold ButtonProcess.Timer ButtonProcess.IsTimerEnable at h
    cases htm : s.m_bTimer with
    | false =>
      rw [htm] at h
      simp at h
      rcases h with ⟨h1, h2⟩
      subst h2
      exact hs
    | true =>
      rw [htm, if_pos rfl] at h
      by_cases hint : (msOf now : Int) - (msOf s.m_tv_cur : Int) ≥ 300
      · rw [if_pos hint] at h
        cases hb : s.m_btnPre with
        | BTN_NULL => exact absurd hb (hs htm)
        | BTN_LEFT =>
          rw [hb] at h
          simp [ButtonProcess.DisableTimer] at h
          rcases h with ⟨h1, h2⟩
          subst h2
          simp
        | BTN_RIGHT =>
          rw [hb] at h
          simp [ButtonProcess.DisableTimer] at h
          rcases h with ⟨h1, h2⟩
          subst h2
          simp
      · rw [if_neg hint] at h
        simp at h
        rcases h with ⟨h1, h2⟩
        subst h2
        exact hs

/-- Auxiliary: a whole call sequence preserves the timer invariant. -/
theorem bpRun_inv : ∀ (evs : List BPEvent) (s s1 : ButtonProcess) (out : List String),
    bpRun evs s = some (out, s1) →
    (s.m_bTimer = true → s.m_btnPre ≠ BtnType.BTN_NULL) →
    (s1.m_bTimer = true → s1.m_btnPre ≠ BtnType.BTN_NULL) := by
  intro evs
  induction evs with
  | nil =>
    intro s s1 out h hs
    simp [bpRun] at h
    rcases h with ⟨h1, h2⟩
    subst h2
    exact hs
  | cons e es ih =>
    intro s s1 out h hs
    simp only [bpRun] at h
    cases h1 : bpStep e s with
    | none => simp [h1] at h
    | some r =>
      obtain ⟨o, sm⟩ := r
      simp only [h1] at h
      cases h2 : bpRun es sm with
      | none => simp [h2] at h
      | some r2 =>
        obtain ⟨o2, s2⟩ := r2
        simp only [h2] at h
        simp at h
        rcases h with ⟨h3, h4⟩
        subst h4
        exact ih sm _ o2 h2 (bpStep_inv h1 hs)

/-- C5: every state reachable by `Button`/`Timer` calls from the initial
state satisfies the invariant (armed timer implies a pending button, and
no pending button implies a disarmed timer); and every classifier decision
— any call of `Button` or `Timer` that emits output — leaves the state
reset to `pending = BTN_NULL`, `timer disarmed`. -/
theorem C5_classifier_invariant :
    (∀ s : ButtonProcess, Reachable s →
      (s.m_bTimer = true → s.m_btnPre ≠ BtnType.BTN_NULL) ∧
      (s.m_btnPre = BtnType.BTN_NULL → s.m_bTimer = false)) ∧
    (∀ (s : ButtonProcess) (type : BtnType) (now : timeval) (out : List String)
        (s1 : ButtonProcess) (ret : Bool),
      s.Button type now = some (out, s1, ret) → out ≠ [] →
      s1.m_btnPre = BtnType.BTN_NULL ∧ s1.m_bTimer = false) ∧
    (∀ (s : ButtonProcess) (now : timeval) (out : List String) (s1 : ButtonProcess),
      s.Timer now = some (out, s1) → out ≠ [] →
      s1.m_btnPre = BtnType.BTN_NULL ∧ s1.m_bTimer = false) := by
  refine ⟨?_, ?_, ?_⟩
  · rintro s ⟨evs, out, hrun⟩
    have hinv := bpRun_inv evs ButtonProcess.init s out hrun
      (by simp [ButtonProcess.init])
    refine ⟨hinv, fun hn => ?_⟩
    cases htm : s.m_bTimer with
    | false => rfl
    | true => exact absurd hn (hinv htm)
  · intro s type now out s1 ret h hne
    cases type <;> cases hb : s.m_btnPre <;>
      simp_all [ButtonProcess.Button, ButtonProcess.EnableTimer,
        ButtonProcess.DisableTimer] <;>
      (rcases h with ⟨h1, h2, h3⟩; subst h2; exact ⟨rfl, rfl⟩)
  · intro s now out s1 h hne
    unfold ButtonProcess.Timer ButtonProcess.IsTimerEnable at h
    cases htm : s.m_bTimer with
    | false =>
      rw [htm] at h
      simp at h
      simp_all
    | true =>
      rw [htm, if_pos rfl] at h
      by_cases hint : (msOf now : Int) - (msOf s.m_tv_cur : Int) ≥ 300
      · rw [if_pos hint] at h
        cases hb : s.m_btnPre with
        | BTN_NULL => rw [hb] at h; simp at h
        | BTN_LEFT =>
          rw [hb] at h
          simp [ButtonProcess.DisableTimer] at h
          rcases h with ⟨h1, h2⟩
          subst h2
          exact ⟨rfl, rfl⟩
        | BTN_RIGHT =>
          rw [hb] at h
          simp [ButtonProcess.DisableTimer] at h
          rcases h with ⟨h1, h2⟩
          subst h2
          exact ⟨rfl, rfl⟩
      · rw [if_neg hint] at h
        simp at h
        simp_all

/-- Witness for C5: the initial state (reachable by the empty call
sequence) satisfies the invariant; a concrete double-click decision and a
concrete timeout decision both land in the reset state. -/
theorem C5_classifier_invariant_witness :
    ((ButtonProcess.init.m_bTimer = true →
        ButtonProcess.init.m_btnPre ≠ BtnType.BTN_NULL) ∧
      (ButtonProcess.init.m_btnPre = BtnType.BTN_NULL →
        ButtonProcess.init.m_bTimer = false)) ∧
    ((⟨BtnType.BTN_NULL, ⟨0, 0⟩, false⟩ : ButtonProcess).m_btnPre = BtnType.BTN_NULL ∧
      (⟨BtnType.BTN_NULL, ⟨0, 0⟩, false⟩ : ButtonProcess).m_bTimer = false) ∧
    ((⟨BtnType.BTN_NULL, ⟨0, 0⟩, false⟩ : ButtonProcess).m_btnPre = BtnType.BTN_NULL ∧
      (⟨BtnType.BTN_NULL, ⟨0, 0⟩, false⟩ : ButtonProcess).m_bTimer = false) :=
  ⟨C5_classifier_invariant.1 ButtonProcess.init ⟨[], [], rfl⟩,
   C5_classifier_invariant.2.1 ⟨BtnType.BTN_LEFT, ⟨0, 0⟩, true⟩ BtnType.BTN_LEFT ⟨0, 0⟩
     ["z"] ⟨BtnType.BTN_NULL, ⟨0, 0⟩, false⟩ true (by decide) (by decide),
   C5_classifier_invariant.2.2 ⟨BtnType.BTN_LEFT, ⟨0, 0⟩, true⟩ ⟨1, 0⟩
     ["<"] ⟨BtnType.BTN_NULL, ⟨0, 0⟩, false⟩ (by decide) (by decide)⟩

/-- C9: from any reachable state with no pending button, any number of
`Timer` calls succeeds (no assertion failure), produces no output and
leaves the state exactly as it was. -/
theorem C9_idle_timer_noop (s : ButtonProcess) (hreach : Reachable s)
    (hidle : s.m_btnPre = BtnType.BTN_NULL) :
    ∀ ts : List timeval, bpRun (ts.map BPEvent.tick) s = some ([], s) := by
  have htm : s.m_bTimer = false := by
    obtain ⟨evs, out, hrun⟩ := hreach
    have hinv := bpRun_inv evs ButtonProcess.init s out hrun
      (by simp [ButtonProcess.init])
    cases h : s.m_bTimer with
    | false => rfl
    | true => exact absurd hidle (hinv h)
  have hT : ∀ t : timeval, s.Timer t = some ([], s) := by
    intro t
    simp [ButtonProcess.Timer, ButtonProcess.IsTimerEnable, htm]
  intro ts
  induction ts with
  | nil => rfl
  | cons t ts ih =>
    simp only [List.map_cons, bpRun, bpStep, hT t, ih]
    simp

/-- Witness for C9: two `Timer` calls on the initial (idle) state are a
no-op with no output. -/
theorem C9_idle_timer_noop_witness :
    bpRun (([⟨0, 0⟩, ⟨5, 0⟩] : List timeval).map BPEvent.tick) ButtonProcess.init =
      some ([], ButtonProcess.init) :=
  C9_idle_timer_noop ButtonProcess.init ⟨[], [], rfl⟩ rfl [⟨0, 0⟩, ⟨5, 0⟩]

/-- Auxiliary: with a button pending, draining any mix of wheel packets
and under-threshold `Timer` ticks, followed by a second press of the same
button, leaves only wheel lines before the final double-click line. -/
theorem runLoop_wheel_mid (B : BtnType) (t0 t1 : timeval) (hB : B ≠ BtnType.BTN_NULL) :
    ∀ (mid : List LoopEvent),
      (∀ e ∈ mid, (∃ d now, e = LoopEvent.pkt d now ∧ d.z ≠ 0) ∨
        (∃ now, e = LoopEvent.tick now ∧ (msOf now : Int) - (msOf t0 : Int) < 300)) →
      ∃ outs, runLoop (mid ++ [LoopEvent.pkt (pressData B) t1]) ⟨B, t0, true⟩ =
          some (outs ++ [if B = BtnType.BTN_LEFT then "z" else "x"],
            ⟨BtnType.BTN_NULL, t0, false⟩, none) ∧
        ∀ o ∈ outs, o = "9" ∨ o = "0" := by
  intro mid
  induction mid with
  | nil =>
    intro _
    refine ⟨[], ?_, by simp⟩
    cases B with
    | BTN_NULL => exact absurd rfl hB
    | BTN_LEFT =>
      simp [runLoop, processPacket, pressData, ButtonProcess.Button,
        ButtonProcess.DisableTimer]
    | BTN_RIGHT =>
      simp [runLoop, processPacket, pressData, ButtonProcess.Button,
        ButtonProcess.DisableTimer]
  | cons e mid ih =>
    intro hcond
    obtain ⟨outs, hrun, houts⟩ := ih (fun e he => hcond e (List.mem_cons_of_mem _ he))
    rcases hcond e (List.mem_cons_self _ _) with ⟨d, now, rfl, hz⟩ | ⟨now, rfl, hlt⟩
    · have hpp : processPacket d ⟨B, t0, true⟩ now =
          some ([if d.z > 0 then "9" else "0"], ⟨B, t0, true⟩, none) := by
        by_cases hpos : d.z > 0 <;> simp [processPacket, hz, hpos]
      refine ⟨(if d.z > 0 then "9" else "0") :: outs, ?_, ?_⟩
      · simp only [List.cons_append, runLoop, hpp]
        rw [List.append_eq, hrun]
        simp
      · intro o ho
        rcases List.mem_cons.mp ho with h | h
        · subst h
          by_cases hpos : d.z > 0 <;> simp [hpos]
        · exact houts o h
    · have hT : ButtonProcess.Timer ⟨B, t0, true⟩ now = some ([], ⟨B, t0, true⟩) := by
        simp [ButtonProcess.Timer, ButtonProcess.IsTimerEnable, not_le.mpr hlt]
      refine ⟨outs, ?_, houts⟩
      simp only [List.cons_append, runLoop, hT]
      rw [List.append_eq, hrun]
      simp

/-- C7: a packet with nonzero wheel delta never changes the classifier
state (it only emits its one wheel line); consequently a press of `B`,
any interleaving of wheel packets (and under-threshold timer checks), and
a second press of `B` yields wheel lines followed by exactly one
double-click line for `B`, with the classifier reset. -/
theorem C7_wheel_frame :
    (∀ (d : imps2_data) (s : ButtonProcess) (now : timeval), d.z ≠ 0 →
      processPacket d s now = some ([if d.z > 0 then "9" else "0"], s, none)) ∧
    (∀ (B : BtnType) (t0 t1 : timeval) (mid : List LoopEvent),
      B ≠ BtnType.BTN_NULL →
      (∀ e ∈ mid, (∃ d now, e = LoopEvent.pkt d now ∧ d.z ≠ 0) ∨
        (∃ now, e = LoopEvent.tick now ∧ (msOf now : Int) - (msOf t0 : Int) < 300)) →
      ∃ outs,
        runLoop (LoopEvent.pkt (pressData B) t0 :: (mid ++ [LoopEvent.pkt (pressData B) t1]))
            ButtonProcess.init =
          some (outs ++ [if B = BtnType.BTN_LEFT then "z" else "x"],
            ⟨BtnType.BTN_NULL, t0, false⟩, none) ∧
        ∀ o ∈ outs, o = "9" ∨ o = "0") := by
  constructor
  · intro d s now hz
    by_cases hpos : d.z > 0 <;> simp [processPacket, hz, hpos]
  · intro B t0 t1 mid hB hmid
    have hfirst : processPacket (pressData B) ButtonProcess.init t0 =
        some ([], ⟨B, t0, true⟩, none) := by
      cases B with
      | BTN_NULL => exact absurd rfl hB
      | BTN_LEFT =>
        simp [processPacket, pressData, ButtonProcess.Button, ButtonProcess.init,
          ButtonProcess.EnableTimer]
      | BTN_RIGHT =>
        simp [processPacket, pressData, ButtonProcess.Button, ButtonProcess.init,
          ButtonProcess.EnableTimer]
    obtain ⟨outs, hrun, houts⟩ := runLoop_wheel_mid B t0 t1 hB mid hmid
    refine ⟨outs, ?_, houts⟩
    simp only [runLoop, hfirst, hrun]
    simp

/-- Witness for C7: a wheel packet in a pending-left state changes
nothing; a left press, one wheel packet, and a second left press yield
the lines `9` then `z`. -/
theorem C7_wheel_frame_witness :
    processPacket (wheelData 1) ⟨BtnType.BTN_LEFT, ⟨0, 0⟩, true⟩ ⟨0, 50⟩ =
      some ([if (wheelData 1).z > 0 then "9" else "0"],
        ⟨BtnType.BTN_LEFT, ⟨0, 0⟩, true⟩, none) ∧
    (∃ outs,
      runLoop (LoopEvent.pkt (pressData BtnType.BTN_LEFT) ⟨0, 0⟩ ::
          ([LoopEvent.pkt (wheelData 1) ⟨0, 50⟩] ++
            [LoopEvent.pkt (pressData BtnType.BTN_LEFT) ⟨0, 100000⟩]))
          ButtonProcess.init =
        some (outs ++ [if BtnType.BTN_LEFT = BtnType.BTN_LEFT then "z" else "x"],
          ⟨BtnType.BTN_NULL, ⟨0, 0⟩, false⟩, none) ∧
      ∀ o ∈ outs, o = "9" ∨ o = "0") :=
  ⟨C7_wheel_frame.1 (wheelData 1) ⟨BtnType.BTN_LEFT, ⟨0, 0⟩, true⟩ ⟨0, 50⟩ (by decide),
   C7_wheel_frame.2 BtnType.BTN_LEFT ⟨0, 0⟩ ⟨0, 100000⟩
     [LoopEvent.pkt (wheelData 1) ⟨0, 50⟩] (by decide)
     (by
       intro e he
       simp at he
       subst he
       exact Or.inl ⟨wheelData 1, ⟨0, 50⟩, rfl, by decide⟩)⟩

/-- Auxiliary: the only way packet dispatch makes `main` return is the
quit branch: exit status 0, output line `q`, classifier reset. -/
theorem processPacket_exit {d : imps2_data} {s : ButtonProcess} {now : timeval}
    {out : List String} {s1 : ButtonProcess} {c : Nat}
    (h : processPacket d s now = some (out, s1, some c)) :
    c = 0 ∧ out = ["q"] ∧ s1.m_btnPre = BtnType.BTN_NULL ∧ s1.m_bTimer = false := by
  by_cases hzxy : d.z = 0 ∧ d.x = 0 ∧ d.y = 0
  · cases hl : d.btn_left <;> cases hr : d.btn_right <;> cases hm : d.btn_middle <;>
      cases hb : s.m_btnPre <;>
      simp_all [processPacket, ButtonProcess.Button, ButtonProcess.EnableTimer,
        ButtonProcess.DisableTimer] <;>
      (rcases h with ⟨h1, h2, h3⟩; subst h2; exact ⟨rfl, rfl⟩)
  · unfold processPacket at h
    rw [if_neg hzxy] at h
    by_cases hz : d.z ≠ 0
    · rw [if_pos hz] at h
      by_cases hpos : d.z > 0
      · rw [if_pos hpos] at h
        simp at h
      · rw [if_neg hpos] at h
        simp at h
    · rw [if_neg hz] at h
      simp at h

/-- C8: exit-code discipline of `main`.  Startup: a failed `open` or a
negative `write` return exits with status 1, otherwise the loop starts.  A
negative `select` return exits with status 1.  In the drain loop: a
zero-byte read (end of stream) and a read error other than `EAGAIN` exit
with status 1; an `EAGAIN` read error only stops draining, with no exit,
no output and no state change.  Exit status 0 happens exactly at a quit
classification: any drain step exiting with 0 emitted the line `q` and
reset the classifier, and conversely a full-size packet whose button press
makes `Button` return `false` exits with status 0. -/
theorem C8_exit_codes :
    (∀ w : Int, startupExit true w = some 1) ∧
    (∀ w : Int, w < 0 → startupExit false w = some 1) ∧
    (∀ w : Int, 0 ≤ w → startupExit false w = none) ∧
    (∀ r : Int, r < 0 → selectCheck r = some 1) ∧
    (∀ r : Int, 0 ≤ r → selectCheck r = none) ∧
    (∀ (s : ButtonProcess) (now : timeval),
      handleRead ReadResult.eof s now = some ([], s, DrainSignal.exitCode 1)) ∧
    (∀ (s : ButtonProcess) (now : timeval),
      handleRead (ReadResult.fail false) s now = some ([], s, DrainSignal.exitCode 1)) ∧
    (∀ (s : ButtonProcess) (now : timeval),
      handleRead (ReadResult.fail true) s now = some ([], s, DrainSignal.stopDrain)) ∧
    (∀ (r : ReadResult) (s : ButtonProcess) (now : timeval) (out : List String)
        (s1 : ButtonProcess),
      handleRead r s now = some (out, s1, DrainSignal.exitCode 0) →
      out = ["q"] ∧ s1.m_btnPre = BtnType.BTN_NULL ∧ s1.m_bTimer = false) ∧
    (∀ (d : imps2_data) (s : ButtonProcess) (now : timeval) (out : List String)
        (s1 : ButtonProcess) (t : BtnType),
      d.z = 0 → d.x = 0 → d.y = 0 →
      (t = BtnType.BTN_LEFT → d.btn_left = true) →
      (t = BtnType.BTN_RIGHT → d.btn_left = false ∧ d.btn_right = true) →
      (t = BtnType.BTN_LEFT ∨ t = BtnType.BTN_RIGHT) →
      s.Button t now = some (out, s1, false) →
      handleRead (ReadResult.chunk 4 d) s now = some (out, s1, DrainSignal.exitCode 0)) := by
  refine ⟨?_, ?_, ?_, ?_, ?_, ?_, ?_, ?_, ?_, ?_⟩
  · intro w
    simp [startupExit]
  · intro w hw
    simp [startupExit, hw]
  · intro w hw
    simp [startupExit, not_lt.mpr hw]
  · intro r hr
    simp [selectCheck, hr]
  · intro r hr
    simp [selectCheck, not_lt.mpr hr]
  · intro s now
    rfl
  · intro s now
    rfl
  · intro s now
    rfl
  · intro r s now out s1 h
    cases r with
    | eof => simp [handleRead] at h
    | fail eagain => cases eagain <;> simp [handleRead] at h
    | chunk nLen d =>
      simp only [handleRead] at h
      by_cases hn : nLen = 4
      · rw [if_pos hn] at h
        cases hp : processPacket d s now with
        | none => rw [hp] at h; simp at h
        | some r1 =>
          obtain ⟨o, sm, ex⟩ := r1
          rw [hp] at h
          cases ex with
          | none => simp at h
          | some c =>
            simp at h
            rcases h with ⟨h1, h2, h3⟩
            subst h1
            subst h2
            subst h3
            obtain ⟨hc0, hq, hpre, htm⟩ := processPacket_exit hp
            exact ⟨hq, hpre, htm⟩
      · rw [if_neg hn] at h
        simp at h
  · intro d s now out s1 t hz hx hy hL hR ht hB
    cases t with
    | BTN_NULL => simp at ht
    | BTN_LEFT =>
      simp [handleRead, processPacket, hz, hx, hy, hL rfl, hB]
    | BTN_RIGHT =>
      obtain ⟨hl, hr⟩ := hR rfl
      simp [handleRead, processPacket, hz, hx, hy, hl, hr, hB]

/-- Witness for C8 at concrete inputs: open failure, write failure,
successful startup, select error, `EAGAIN`, and a quit packet (pending
left, right pressed) that exits with status 0. -/
theorem C8_exit_codes_witness :
    startupExit true 0 = some 1 ∧
    startupExit false (-1) = some 1 ∧
    startupExit false 6 = none ∧
    selectCheck (-1) = some 1 ∧
    handleRead (ReadResult.fail true) ButtonProcess.init ⟨0, 0⟩ =
      some ([], ButtonProcess.init, DrainSignal.stopDrain) ∧
    handleRead (ReadResult.chunk 4 (pressData BtnType.BTN_RIGHT))
        ⟨BtnType.BTN_LEFT, ⟨0, 0⟩, true⟩ ⟨0, 100000⟩ =
      some (["q"], ⟨BtnType.BTN_NULL, ⟨0, 0⟩, false⟩, DrainSignal.exitCode 0) ∧
    (["q"] = ["q"] ∧
      (⟨BtnType.BTN_NULL, ⟨0, 0⟩, false⟩ : ButtonProcess).m_btnPre = BtnType.BTN_NULL ∧
      (⟨BtnType.BTN_NULL, ⟨0, 0⟩, false⟩ : ButtonProcess).m_bTimer = false) :=
  ⟨C8_exit_codes.1 0,
   C8_exit_codes.2.1 (-1) (by decide),
   C8_exit_codes.2.2.1 6 (by decide),
   C8_exit_codes.2.2.2.1 (-1) (by decide),
   C8_exit_codes.2.2.2.2.2.2.2.1 ButtonProcess.init ⟨0, 0⟩,
   C8_exit_codes.2.2.2.2.2.2.2.2.2 (pressData BtnType.BTN_RIGHT)
     ⟨BtnType.BTN_LEFT, ⟨0, 0⟩, true⟩ ⟨0, 100000⟩ ["q"] ⟨BtnType.BTN_NULL, ⟨0, 0⟩, false⟩
     BtnType.BTN_RIGHT rfl rfl rfl (by intro hh; cases hh) (fun _ => ⟨rfl, rfl⟩)
     (Or.inr rfl) (by decide),
   C8_exit_codes.2.2.2.2.2.2.2.2.1 (ReadResult.chunk 4 (pressData BtnType.BTN_RIGHT))
     ⟨BtnType.BTN_LEFT, ⟨0, 0⟩, true⟩ ⟨0, 100000⟩ ["q"] ⟨BtnType.BTN_NULL, ⟨0, 0⟩, false⟩
     (by decide)⟩
